import Mathlib

/-!
Verification development for `src/tp2c2025/main.js`, a browser flight-toy
setup script.  The script builds a renderer, scene, camera and plane mesh,
constructs an `AirplaneController` with a fixed configuration, and runs a
single animation loop.  We embed the script shallowly: the per-frame loop,
the keyboard and resize handlers, and the HUD formatting become pure Lean
functions over rational numbers, and their observable actions become
explicit effect traces.  The `AirplaneController` implementation itself is
not part of the repository (only `main.js`, its consumer, is), so the one
operation whose internals a claim depends on is modelled from the spec and
marked as such.
-/

namespace Tp2c2025

/-- JS numbers are modelled as rationals (all the constants in `main.js`
are exactly representable, and none of the verified paths hit float
rounding). -/
abbrev JsNum := ℚ

/-- Truncation toward zero, the rounding performed by JS `ToInt32` before
the bitwise part of `x|0`. -/
def jsTrunc (q : ℚ) : ℤ :=
  if 0 ≤ q then ⌊q⌋ else ⌈q⌉

/-- Wrap an integer into the signed 32-bit range, as JS `ToInt32` does. -/
def toInt32 (n : ℤ) : ℤ :=
  (n + 2 ^ 31) % 2 ^ 32 - 2 ^ 31

/-- The JS expression `x|0`: truncate toward zero, then wrap to int32. -/
def jsOrZero (q : ℚ) : ℤ :=
  toInt32 (jsTrunc q)

/-- Integer chosen by `Number.prototype.toFixed` for a nonnegative value:
the `n` with `n / 10^d` closest to `x`, ties to the larger `n`, i.e.
`⌊x * 10^d + 1/2⌋`. -/
def toFixedInt (d : ℕ) (x : ℚ) : ℤ :=
  ⌊x * 10 ^ d + 1 / 2⌋

/-- Render a natural number left-padded with zeros to `d` digits. -/
def padZeros (d : ℕ) (n : ℕ) : String :=
  let s := toString n
  if s.length < d then String.mk (List.replicate (d - s.length) '0') ++ s else s

/-- Digits of `Number.prototype.toFixed` for a nonnegative value. -/
def toFixedNonneg (d : ℕ) (x : ℚ) : String :=
  let n := (toFixedInt d x).toNat
  if d = 0 then toString n
  else toString (n / 10 ^ d) ++ "." ++ padZeros d (n % 10 ^ d)

/-- JS `Number.prototype.toFixed d x`: the ECMA algorithm extracts the
sign first and rounds the absolute value. -/
def ratToFixed (d : ℕ) (x : ℚ) : String :=
  if x < 0 then "-" ++ toFixedNonneg d (-x) else toFixedNonneg d x

/-- THREE.MathUtils.degToRad, parametrised by the caller's value of π. -/
def degToRad (pi deg : ℚ) : ℚ := deg * pi / 180

/-! ### Controller-facing data (main.js lines 75–107) -/

/-- Configuration object passed to `new AirplaneController(plane, {...})`
(`main.js` lines 75–100). -/
structure CtrlConfig where
  maxSpeed : JsNum
  accelResponse : JsNum
  drag : JsNum
  pitchLimit : JsNum
  bankLimit : JsNum
  pitchCmdRateDeg : JsNum
  bankCmdRateDeg : JsNum
  pitchResponse : JsNum
  bankResponse : JsNum
  pitchCentering : JsNum
  bankCentering : JsNum
  turnRateGain : JsNum
  yawTaxiRate : JsNum
  stallSpeed : JsNum
  ctrlVRange : JsNum
  minY : JsNum
deriving Repr, DecidableEq

/-- The literal configuration of `main.js` lines 75–100; `pi` is the
caller's value of π (used by `degToRad` and `Math.PI`). -/
def mainConfig (pi : ℚ) : CtrlConfig where
  maxSpeed := 120
  accelResponse := 2.2
  drag := 0.015
  pitchLimit := degToRad pi 45
  bankLimit := degToRad pi 60
  pitchCmdRateDeg := 60
  bankCmdRateDeg := 90
  pitchResponse := 5.0
  bankResponse := 6.0
  pitchCentering := 1.0
  bankCentering := 1.5
  turnRateGain := 1.3
  yawTaxiRate := pi * 1.4
  stallSpeed := 12
  ctrlVRange := 25
  minY := 2

/-- Argument object of `controller.setTransform({position, euler, throttle})`. -/
structure TransformArgs where
  position : ℚ × ℚ × ℚ
  euler : ℚ × ℚ × ℚ
  eulerOrder : String
  throttle : ℚ
deriving Repr, DecidableEq

/-- The transform applied at startup (`main.js` lines 103–107): origin at
height 2, level attitude in YXZ order, throttle 0. -/
def startupTransform : TransformArgs where
  position := (0, 2, 0)
  euler := (0, 0, 0)
  eulerOrder := "YXZ"
  throttle := 0

/-- The transform built inside the `KeyR` branch of the keydown handler
(`main.js` lines 130–134). -/
def resetTransform : TransformArgs where
  position := (0, 2, 0)
  euler := (0, 0, 0)
  eulerOrder := "YXZ"
  throttle := 0

/-! ### Controller state and the spec-modelled update -/

/-- Mutable state owned by the controller: plane position, orientation
angles, speed and throttle (spec §3, "Plane transform"). -/
structure CtrlState where
  px : ℚ
  py : ℚ
  pz : ℚ
  speed : ℚ
  pitch : ℚ
  bank : ℚ
  heading : ℚ
  throttle : ℚ
deriving Repr, DecidableEq

/-- Ground-height clamp: the plane's y position is raised to at least
`cfg.minY`. -/
def clampGround (cfg : CtrlConfig) (st : CtrlState) : CtrlState :=
  { st with py := max st.py cfg.minY }

/-- Modelled from the spec: `AirplaneController.update` is missing from
the repository (only `main.js`, its caller, is present).  Per the spec it
"integrates throttle, pitch, bank, and speed into a position/orientation
update per frame, with limits, response rates, stall behavior, and a
ground-height clamp" and "enforces minimum height".  The integration step
is left abstract (the spec explicitly refuses to guess its formulas) and
the ground-height clamp is applied to its result. -/
def ctrlUpdate (cfg : CtrlConfig) (integrate : ℚ → CtrlState → CtrlState)
    (dt : ℚ) (st : CtrlState) : CtrlState :=
  clampGround cfg (integrate dt st)

/-! ### Status snapshot and HUD (main.js lines 110–118) -/

/-- Read-only snapshot returned by `controller.getStatus()`: speed and
orientation angles in degrees, as consumed by the HUD. -/
structure Status where
  speed : ℚ
  pitchDeg : ℚ
  bankDeg : ℚ
deriving Repr, DecidableEq

/-- The string assigned to `hudEl.innerHTML` (`main.js` lines 114–117),
built from the status snapshot `s` and `controller.getEnginePower() = p`. -/
def hudString (s : Status) (p : ℚ) : String :=
  "Vel: " ++ ratToFixed 1 s.speed ++ " u/s<br>" ++
  ("Throttle: " ++ toString (jsOrZero (p * 100)) ++ "%<br>") ++
  ("Pitch/Bank: " ++ ratToFixed 0 s.pitchDeg ++ "° / " ++
    ratToFixed 0 s.bankDeg ++ "°")

/-! ### Effect traces

Each entry point of the script is embedded as the list of observable
actions it performs, in program order. -/

/-- Observable actions of the script. -/
inductive Effect where
  | getDelta : Effect
  | updateCall (dt : ℚ) : Effect
  | queryStatus : Effect
  | queryPower : Effect
  | domWrite (s : String) : Effect
  | render : Effect
  | reschedule : Effect
  | setTransformCall (t : TransformArgs) : Effect
  | setAspect (a : ℚ) : Effect
  | updateProjection : Effect
  | setSize (w h : ℚ) : Effect
deriving Repr, DecidableEq

/-- Whether an effect is a call to `controller.update`. -/
def Effect.isUpdate : Effect → Bool
  | .updateCall _ => true
  | _ => false

/-- Actions of `updateHUD()` (`main.js` lines 111–118): if the element
lookup was null, return at once; otherwise query the controller and write
the formatted string into the DOM. -/
def updateHUDEffects (hudEl : Option Unit) (s : Status) (p : ℚ) :
    List Effect :=
  match hudEl with
  | none => []
  | some _ => [.queryStatus, .queryPower, .domWrite (hudString s p)]

/-- Actions of the keydown handler (`main.js` lines 128–136): on `KeyR`
reset the transform, otherwise do nothing. -/
def keydownEffects (code : String) : List Effect :=
  if code = "KeyR" then [.setTransformCall resetTransform] else []

/-- Actions of the resize handler (`main.js` lines 121–125). -/
def resizeEffects (w h : ℚ) : List Effect :=
  [.setAspect (w / h), .updateProjection, .setSize w h]

/-- Actions of one iteration of `animate()` (`main.js` lines 140–146):
read the clock, step the controller by the clamped delta, refresh the
HUD, render, reschedule. -/
def animateFrame (delta : ℚ) (hudEl : Option Unit) (s : Status) (p : ℚ) :
    List Effect :=
  let dt := min (0.05 : ℚ) delta
  [Effect.getDelta] ++ [Effect.updateCall dt] ++ updateHUDEffects hudEl s p
    ++ [Effect.render] ++ [Effect.reschedule]

/-- The `dt` arguments of the `controller.update` calls in a trace. -/
def updateArgs (tr : List Effect) : List ℚ :=
  tr.filterMap fun e => match e with
    | .updateCall dt => some dt
    | _ => none

/-! ### Camera and renderer state (main.js lines 5–13, 121–125) -/

/-- Perspective camera: the `aspect` field plus the parameters baked into
the projection matrix last built by `updateProjectionMatrix`. -/
structure Camera where
  fov : ℚ
  aspect : ℚ
  near : ℚ
  far : ℚ
  projParams : ℚ × ℚ × ℚ × ℚ
deriving Repr, DecidableEq

/-- `camera.updateProjectionMatrix()`: rebuild the projection matrix from
the camera's current parameters. -/
def Camera.updateProjectionMatrix (c : Camera) : Camera :=
  { c with projParams := (c.fov, c.aspect, c.near, c.far) }

/-- Renderer state: pixel ratio and canvas size. -/
structure Renderer where
  pixelRatio : ℚ
  width : ℚ
  height : ℚ
deriving Repr, DecidableEq

/-- `renderer.setSize(w, h)` (`main.js` lines 7 and 124). -/
def Renderer.setSize (r : Renderer) (w h : ℚ) : Renderer :=
  { r with width := w, height := h }

/-- `renderer.setPixelRatio(Math.min(window.devicePixelRatio, 2))`
(`main.js` line 6). -/
def Renderer.setPixelRatio (r : Renderer) (d : ℚ) : Renderer :=
  { r with pixelRatio := min d 2 }

/-- Camera and renderer together, the state the resize handler touches. -/
structure ViewState where
  camera : Camera
  renderer : Renderer
deriving Repr, DecidableEq

/-- The resize handler (`main.js` lines 121–125): set the aspect from the
window, rebuild the projection matrix, resize the renderer. -/
def onResize (w h : ℚ) (v : ViewState) : ViewState :=
  let c := { v.camera with aspect := w / h }
  { camera := c.updateProjectionMatrix, renderer := v.renderer.setSize w h }

/-! ### Spec-side HUD formulation (for the refinement claim C4) -/

/-- Join lines with a separator; the claim reads the HUD content as three
lines separated by line breaks. -/
def joinSep (sep : String) : List String → String
  | [] => ""
  | [a] => a
  | a :: rest => a ++ sep ++ joinSep sep rest

/-- HUD content as the claim states it: the three strings
`Vel: <speed to 1 decimal> u/s`, `Throttle: <truncated percent>%` and
`Pitch/Bank: <pitch>° / <bank>°`, separated by line breaks (`<br>`). -/
def hudSpecString (s : Status) (p : ℚ) : String :=
  joinSep "<br>"
    ["Vel: " ++ ratToFixed 1 s.speed ++ " u/s",
     "Throttle: " ++ toString (jsOrZero (p * 100)) ++ "%",
     "Pitch/Bank: " ++ ratToFixed 0 s.pitchDeg ++ "° / " ++
       ratToFixed 0 s.bankDeg ++ "°"]

/-! ### Helper lemmas -/

/-- Splitting the literal ` u/s<br>` at the line break. -/
theorem append_us_br (x : String) : " u/s" ++ ("<br>" ++ x) = " u/s<br>" ++ x := by
  rw [← String.append_assoc]; exact congrArg (fun s => s ++ x) rfl

/-- Splitting the literal `%<br>` at the line break. -/
theorem append_pct_br (x : String) : "%" ++ ("<br>" ++ x) = "%<br>" ++ x := by
  rw [← String.append_assoc]; exact congrArg (fun s => s ++ x) rfl

/-- Wrapping to int32 is the identity on small nonnegative values. -/
theorem toInt32_id_of_small (n : ℤ) (h0 : 0 ≤ n) (h1 : n ≤ 100) :
    toInt32 n = n := by
  unfold toInt32; omega

/-! ### Claim theorems -/

/-- C1: each animation frame passes `controller.update` exactly the time
step `min(0.05, clock delta)`, so for a nonnegative clock delta every `dt`
handed to `update` is at most 0.05 seconds. -/
theorem animate_dt_min_clamp (delta : ℚ) (hudEl : Option Unit) (s : Status)
    (p : ℚ) (_hdelta : 0 ≤ delta) :
    updateArgs (animateFrame delta hudEl s p) = [min (0.05 : ℚ) delta] ∧
    ∀ dt ∈ updateArgs (animateFrame delta hudEl s p), dt ≤ 0.05 := by
  have he : updateArgs (animateFrame delta hudEl s p)
      = [min (0.05 : ℚ) delta] := by
    cases hudEl <;> simp [animateFrame, updateArgs, updateHUDEffects]
  refine ⟨he, ?_⟩
  intro dt hdt
  rw [he, List.mem_singleton] at hdt
  rw [hdt]
  exact min_le_left _ _

/-- Witness for C1 at clock delta 1. -/
theorem animate_dt_min_clamp_witness :
    (0 : ℚ) ≤ 1 ∧
    (updateArgs (animateFrame 1 none ⟨0, 0, 0⟩ 0) = [min (0.05 : ℚ) 1] ∧
     ∀ dt ∈ updateArgs (animateFrame 1 none ⟨0, 0, 0⟩ 0), dt ≤ 0.05) :=
  ⟨by norm_num, animate_dt_min_clamp 1 none ⟨0, 0, 0⟩ 0 (by norm_num)⟩

/-- C2: after any call to the controller's update (modelled from the spec,
with the integration step abstract), the plane's y position is at least
the configured minimum height `minY = 2`. -/
theorem update_enforces_minY (pi : ℚ)
    (integrate : ℚ → CtrlState → CtrlState) (dt : ℚ) (st : CtrlState) :
    (2 : ℚ) ≤ (ctrlUpdate (mainConfig pi) integrate dt st).py := by
  simp only [ctrlUpdate, clampGround, mainConfig]
  exact le_max_right _ _

/-- C3: the keydown handler reacts to `KeyR` with a single
`setTransform` call whose pose is position (0, 2, 0), euler (0, 0, 0) in
`YXZ` order and throttle 0, and that pose is the startup pose. -/
theorem keyR_reset_pose :
    keydownEffects "KeyR" =
      [Effect.setTransformCall
        { position := (0, 2, 0), euler := (0, 0, 0),
          eulerOrder := "YXZ", throttle := 0 }] ∧
    resetTransform = startupTransform := by
  exact ⟨by simp [keydownEffects, resetTransform], rfl⟩

/-- C4: updating the HUD with a present element queries the controller
status and engine power and writes exactly the string made of the three
lines `Vel: <speed to 1 decimal> u/s`, `Throttle: <truncated percent>%`
and `Pitch/Bank: <pitch>° / <bank>°` separated by line breaks. -/
theorem hud_content_matches_spec (s : Status) (p : ℚ) :
    updateHUDEffects (some ()) s p =
      [Effect.queryStatus, Effect.queryPower,
       Effect.domWrite (hudString s p)] ∧
    hudString s p = hudSpecString s p := by
  refine ⟨rfl, ?_⟩
  simp only [hudString, hudSpecString, joinSep, String.append_assoc,
    append_us_br, append_pct_br]

/-- C5: when the HUD element lookup returned null, `updateHUD` performs
no controller query and no DOM write at all. -/
theorem hud_null_guard (s : Status) (p : ℚ) :
    updateHUDEffects none s p = [] := rfl

/-- C6: for a throttle fraction in [0, 1], the displayed percentage
`(x*100)|0` is an integer between 0 and 100, and equals 100 exactly when
the throttle is 1. -/
theorem hud_throttle_percent (x : ℚ) (h0 : 0 ≤ x) (h1 : x ≤ 1) :
    0 ≤ jsOrZero (x * 100) ∧ jsOrZero (x * 100) ≤ 100 ∧
    (jsOrZero (x * 100) = 100 ↔ x = 1) := by
  have hx0 : (0 : ℚ) ≤ x * 100 := by positivity
  have hx100 : x * 100 ≤ 100 := by linarith
  have htr : jsTrunc (x * 100) = ⌊x * 100⌋ := by simp [jsTrunc, hx0]
  have hfl0 : 0 ≤ ⌊x * 100⌋ := Int.floor_nonneg.mpr hx0
  have hfl100 : ⌊x * 100⌋ ≤ 100 := by
    have h := Int.floor_le_floor (α := ℚ) hx100
    simpa using h
  have hid : jsOrZero (x * 100) = ⌊x * 100⌋ := by
    rw [jsOrZero, htr]
    exact toInt32_id_of_small _ hfl0 hfl100
  refine ⟨by rw [hid]; exact hfl0, by rw [hid]; exact hfl100, ?_⟩
  rw [hid]
  constructor
  · intro hfq
    have h100 : (100 : ℚ) ≤ x * 100 := by
      have := Int.le_floor.mp (le_of_eq hfq.symm)
      exact_mod_cast this
    linarith
  · intro hx1
    subst hx1
    norm_num

/-- Witness for C6 at throttle 1/2. -/
theorem hud_throttle_percent_witness :
    (0 : ℚ) ≤ 1 / 2 ∧ (1 / 2 : ℚ) ≤ 1 ∧
    (0 ≤ jsOrZero ((1 / 2) * 100) ∧ jsOrZero ((1 / 2) * 100) ≤ 100 ∧
     (jsOrZero ((1 / 2) * 100) = 100 ↔ (1 / 2 : ℚ) = 1)) :=
  ⟨by norm_num, by norm_num,
    hud_throttle_percent (1 / 2) (by norm_num) (by norm_num)⟩

/-- C7: after the resize handler runs, the camera aspect is
`width / height`, the projection matrix has been rebuilt from the current
parameters (so it carries the new aspect), and the renderer size is the
new window size. -/
theorem resize_updates_view (w h : ℚ) (v : ViewState) :
    (onResize w h v).camera.aspect = w / h ∧
    (onResize w h v).camera.projParams
      = (v.camera.fov, w / h, v.camera.near, v.camera.far) ∧
    (onResize w h v).renderer.width = w ∧
    (onResize w h v).renderer.height = h := by
  refine ⟨rfl, rfl, rfl, rfl⟩

/-- C8: one animation frame reads the clock, then calls
`controller.update` exactly once, strictly before the HUD update and the
render, and ends by rescheduling itself; neither the HUD code nor the
keydown or resize handlers ever call `update`. -/
theorem animate_update_once_in_order (delta : ℚ) (hudEl : Option Unit)
    (s : Status) (p : ℚ) :
    animateFrame delta hudEl s p
      = Effect.getDelta :: Effect.updateCall (min (0.05 : ℚ) delta)
          :: (updateHUDEffects hudEl s p
              ++ [Effect.render, Effect.reschedule]) ∧
    (animateFrame delta hudEl s p).countP Effect.isUpdate = 1 ∧
    (updateHUDEffects hudEl s p).countP Effect.isUpdate = 0 ∧
    (∀ code, (keydownEffects code).countP Effect.isUpdate = 0) ∧
    (∀ w h, (resizeEffects w h).countP Effect.isUpdate = 0) := by
  have hhud : (updateHUDEffects hudEl s p).countP Effect.isUpdate = 0 := by
    cases hudEl <;> simp [updateHUDEffects, Effect.isUpdate]
  refine ⟨by simp [animateFrame], ?_, hhud, ?_, ?_⟩
  · simp [animateFrame, List.countP_append, hhud, Effect.isUpdate,
      List.countP_cons]
  · intro code
    by_cases hc : code = "KeyR" <;>
      simp [keydownEffects, hc, Effect.isUpdate]
  · intro w hh
    simp [resizeEffects, Effect.isUpdate]

/-- C9: a keydown whose code is not `KeyR` leaves everything untouched:
the handler performs no action. -/
theorem keydown_other_noop (code : String) (h : code ≠ "KeyR") :
    keydownEffects code = [] := by
  simp [keydownEffects, h]

/-- Witness for C9 at code `KeyA`. -/
theorem keydown_other_noop_witness :
    "KeyA" ≠ "KeyR" ∧ keydownEffects "KeyA" = [] :=
  ⟨by decide, keydown_other_noop "KeyA" (by decide)⟩

/-- C10: the renderer pixel ratio is set to `min(devicePixelRatio, 2)`,
so it never exceeds 2. -/
theorem pixelRatio_clamped (d : ℚ) (r : Renderer) :
    (r.setPixelRatio d).pixelRatio = min d 2 ∧
    (r.setPixelRatio d).pixelRatio ≤ 2 :=
  ⟨rfl, min_le_right d 2⟩

end Tp2c2025
